import Mathlib

/-!
Shallow embedding of the session orchestrator of quentli-js
(`src/Quentli.ts`, with the validation helpers of `src/utils.ts`).

The `Quentli` class is modelled as a record of its mutable fields; the
closures it installs (the global `message` listener, the private
channel's `port1.onmessage` handler, the popup-close poll) are modelled
as `Option Callbacks` fields carrying the callback set each closure
captured.  Browser-delivered events (window messages, channel messages,
poll ticks, the user closing the popup) drive a step function on this
state; observable actions (callback invocations, the `INIT` post that
carries the credentials) are recorded in an effect trace.
-/

namespace QuentliJS

/-- Session kind, `Quentli.sessionType`: `'payment' | 'setup'`. -/
inductive SType
  | payment
  | setup
deriving DecidableEq

/-- Protocol message types (`QuentliMessageType` in `types.ts`); `other`
stands for any unrecognized value of the `type` field, which the
listener logs and ignores. -/
inductive MType
  | READY
  | INIT
  | PAYMENT_COMPLETED
  | PAYMENT_METHOD_ADDED
  | other
deriving DecidableEq

/-- Inbound message payload (`QuentliMessage`), restricted to the fields
the orchestrator's control flow reads: `type` and `status`.
`type = none` models `event.data` lacking a recognized `type` field
(the listener's `if (!message || !message.type) return`).  The remaining
payload fields (`paymentSessionId`, `paymentMethod`, ...) are forwarded
to callbacks verbatim and never branch on, so they are omitted. -/
structure Msg where
  type : Option MType
  status : Option String
deriving DecidableEq

/-- A popup window handle; `closed` mirrors `Window.closed`. -/
structure Win where
  closed : Bool
deriving DecidableEq

/-- One session's callback set (`SessionCallbacks`), plus a numeric
session identifier `id` so that effects can be attributed to the session
whose closures captured them.  `hasComplete` records whether
`options.onComplete || options.onPaymentMethodAdded` was provided,
exactly the merge `initSession` performs. -/
structure Callbacks where
  id : Nat
  hasComplete : Bool
  hasCancel : Bool
  hasError : Bool
deriving DecidableEq

/-- The credential pair (`QuentliAuthSession`). -/
structure AuthSession where
  accessToken : String
  csrfToken : String
deriving DecidableEq

/-- The mutable fields of the `Quentli` class, plus the live channels
the class no longer references.  `messageHandler`, `messageChannel` and
`popupCheckInterval` are `some cbs` exactly while the global listener /
current private channel / poll interval is installed, where `cbs` is the
callback set captured by the corresponding closure.

`orphanedChannels` holds the channels whose handle was overwritten out
of `this.messageChannel` by a later `READY` without `port1` ever being
closed (`handleReady` assigns `this.messageChannel = new
MessageChannel()` unconditionally, and `cleanup` closes only the current
`this.messageChannel.port1`): the class holds no reference to them, but
each orphan's `port1.onmessage` closure stays installed and enabled,
holding the callback set it captured and reading `this.sessionType`
dynamically at delivery time. -/
structure QState where
  messageChannel : Option Callbacks
  popupWindow : Option Win
  iframeElement : Option Unit
  messageHandler : Option Callbacks
  popupCheckInterval : Option Callbacks
  authSession : Option AuthSession
  expectedOrigin : Option String
  isDestroyed : Bool
  sessionType : Option SType
  orphanedChannels : List Callbacks
deriving DecidableEq

/-- Which surface an `INIT` post is addressed to: `handleReady`'s
`targetWindow` is `this.popupWindow || this.iframeElement?.contentWindow`. -/
inductive TargetKind
  | popup
  | iframe
deriving DecidableEq

/-- Observable actions.  The three `cb...` constructors record an
invocation of the session's `onComplete`/`onPaymentMethodAdded`,
`onCancel`, or `onError` callback (tagged with the owning session id);
`postInit` records the `targetWindow.postMessage` call in `handleReady`:
the addressed surface, the `targetOrigin` argument (`event.origin`), the
credentials carried in the payload, and the number of transferred ports
(the literal `[this.messageChannel.port2]`). -/
inductive Effect
  | cbComplete (id : Nat)
  | cbCancel (id : Nat)
  | cbError (id : Nat)
  | postInit (target : TargetKind) (targetOrigin accessToken csrfToken : String)
      (ports : Nat)
deriving DecidableEq

/-- A freshly constructed `Quentli` instance: every resource field null,
not destroyed. -/
def freshState : QState :=
  { messageChannel := none
    popupWindow := none
    iframeElement := none
    messageHandler := none
    popupCheckInterval := none
    authSession := none
    expectedOrigin := none
    isDestroyed := false
    sessionType := none
    orphanedChannels := [] }

/-- `Quentli.cleanup`.  Transcribed branch by branch; note that the
popup handle is closed and nulled only under
`if (this.popupWindow && !this.popupWindow.closed)` — an already-closed
handle is left in place — while every other field is reset
unconditionally.  Channel teardown closes only the CURRENT channel's
retained port (`this.messageChannel.port1.close()`): a channel orphaned
by an earlier repeated `READY` keeps its open port and callback closure,
so `orphanedChannels` survives cleanup untouched. -/
def cleanup (st : QState) : QState :=
  { st with
    popupWindow :=
      match st.popupWindow with
      | some w => if !w.closed then none else some w
      | none => none
    iframeElement := none
    popupCheckInterval := none
    messageChannel := none
    messageHandler := none
    authSession := none
    expectedOrigin := none
    sessionType := none }

/-- `Quentli.destroy`: early-return when already destroyed, else
`cleanup` and mark destroyed. -/
def destroy (st : QState) : QState :=
  if st.isDestroyed then st else { cleanup st with isDestroyed := true }

/-- `Quentli.isActive`: `!this.isDestroyed`. -/
def isActive (st : QState) : Bool :=
  !st.isDestroyed

/-- `Quentli.handleCompletion`: classify the outcome message by the
current session kind, fire the matching callback when one was provided,
then `cleanup`.  A payment message whose `status` is neither
`"COMPLETE"` nor `"CANCELED"` falls through both branches and does
nothing (no callback, no cleanup). -/
def handleCompletion (st : QState) (cbs : Callbacks) (m : Msg) :
    QState × List Effect :=
  match st.sessionType with
  | some SType.payment =>
    if m.status = some "COMPLETE" then
      (cleanup st, if cbs.hasComplete then [Effect.cbComplete cbs.id] else [])
    else if m.status = some "CANCELED" then
      (cleanup st, if cbs.hasCancel then [Effect.cbCancel cbs.id] else [])
    else (st, [])
  | some SType.setup =>
    (cleanup st, if cbs.hasComplete then [Effect.cbComplete cbs.id] else [])
  | none => (st, [])

/-- `Quentli.handleReady`: pick the target surface
(`this.popupWindow || this.iframeElement?.contentWindow`), return early
if there is no surface or no stored session, then create the private
channel, install its `port1.onmessage` handler, and post `INIT` carrying
the stored credentials plus the transferred `[port2]` to `event.origin`.
`allocFail` models `new MessageChannel()` throwing inside the `try`: the
`catch` reports via `callbacks.onError` and changes nothing else (no
cleanup, no rethrow).  On success the assignment
`this.messageChannel = new MessageChannel()` overwrites any previous
channel WITHOUT closing its `port1`: the old channel becomes an orphan
whose `onmessage` closure stays live, so it is pushed onto
`orphanedChannels`. -/
def handleReady (st : QState) (cbs : Callbacks) (origin : String)
    (allocFail : Bool) : QState × List Effect :=
  let target : Option TargetKind :=
    match st.popupWindow, st.iframeElement with
    | some _, _ => some TargetKind.popup
    | none, some _ => some TargetKind.iframe
    | none, none => none
  match target, st.authSession with
  | none, _ => (st, [])
  | some _, none => (st, [])
  | some t, some s =>
    if allocFail then
      (st, if cbs.hasError then [Effect.cbError cbs.id] else [])
    else
      ({ st with
          messageChannel := some cbs
          orphanedChannels :=
            match st.messageChannel with
            | some old => old :: st.orphanedChannels
            | none => st.orphanedChannels },
       [Effect.postInit t origin s.accessToken s.csrfToken 1])

/-- The origin gate of the listener in `setupMessageListener`:
`if (this.expectedOrigin && event.origin !== this.expectedOrigin) return`. -/
def originRejected (st : QState) (origin : String) : Bool :=
  match st.expectedOrigin with
  | some eo => origin != eo
  | none => false

/-- The body of the listener installed by `Quentli.setupMessageListener`:
drop any message whose origin differs from `expectedOrigin` (when one is
set), drop messages without a recognized `type`, then dispatch `READY` /
`PAYMENT_COMPLETED` / `PAYMENT_METHOD_ADDED`, the latter two gated on
the session kind; anything else is logged and ignored. -/
def handleMessage (st : QState) (cbs : Callbacks) (origin : String)
    (data : Option Msg) (allocFail : Bool) : QState × List Effect :=
  if originRejected st origin then (st, [])
  else
    match data with
    | none => (st, [])
    | some m =>
      match m.type with
      | none => (st, [])
      | some MType.READY => handleReady st cbs origin allocFail
      | some MType.PAYMENT_COMPLETED =>
        if st.sessionType = some SType.payment then handleCompletion st cbs m
        else (st, [])
      | some MType.PAYMENT_METHOD_ADDED =>
        if st.sessionType = some SType.setup then handleCompletion st cbs m
        else (st, [])
      | some _ => (st, [])

/-- Environment events: a window `message` (with its source origin, its
payload, and whether channel allocation would fail while handling it), a
message delivered on the current private channel's retained port, a
message delivered on the still-open `port1` of a channel orphaned by a
repeated `READY` (identified by the callback set its closure captured),
one tick of the popup-close poll, and the user closing the popup
window. -/
inductive Ev
  | windowMsg (origin : String) (data : Option Msg) (allocFail : Bool)
  | channelMsg (m : Msg)
  | orphanMsg (c : Callbacks) (m : Msg)
  | pollTick
  | closePopup

/-- One event step.  A window message reaches the listener body only
while a listener is installed; a channel message reaches the current
channel's `port1.onmessage` body only while that channel is live
(`cleanup` closes its `port1`); a message on an orphaned channel reaches
its still-open `port1.onmessage` closure whenever that orphan exists —
`cleanup` never closes it — and the closure re-reads `this.sessionType`
at delivery time, exactly like the current channel's; the `setInterval`
body runs only while the interval is scheduled, and fires `onCancel`
followed by `cleanup` when `this.popupWindow?.closed` holds. -/
def step (st : QState) (ev : Ev) : QState × List Effect :=
  match ev with
  | Ev.windowMsg o d f =>
    match st.messageHandler with
    | none => (st, [])
    | some cbs => handleMessage st cbs o d f
  | Ev.channelMsg m =>
    match st.messageChannel with
    | none => (st, [])
    | some cbs =>
      match m.type with
      | some MType.PAYMENT_COMPLETED =>
        if st.sessionType = some SType.payment then handleCompletion st cbs m
        else (st, [])
      | some MType.PAYMENT_METHOD_ADDED =>
        if st.sessionType = some SType.setup then handleCompletion st cbs m
        else (st, [])
      | _ => (st, [])
  | Ev.orphanMsg c m =>
    if c ∈ st.orphanedChannels then
      match m.type with
      | some MType.PAYMENT_COMPLETED =>
        if st.sessionType = some SType.payment then handleCompletion st c m
        else (st, [])
      | some MType.PAYMENT_METHOD_ADDED =>
        if st.sessionType = some SType.setup then handleCompletion st c m
        else (st, [])
      | _ => (st, [])
    else (st, [])
  | Ev.pollTick =>
    match st.popupCheckInterval with
    | none => (st, [])
    | some cbs =>
      match st.popupWindow with
      | some w =>
        if w.closed then
          (cleanup st, if cbs.hasCancel then [Effect.cbCancel cbs.id] else [])
        else (st, [])
      | none => (st, [])
  | Ev.closePopup =>
    match st.popupWindow with
    | some _ => ({ st with popupWindow := some { closed := true } }, [])
    | none => (st, [])

/-- Process a list of events in delivery order, concatenating effects. -/
def run (st : QState) : List Ev → QState × List Effect
  | [] => (st, [])
  | ev :: evs =>
    let r := step st ev
    let r2 := run r.1 evs
    (r2.1, r.2 ++ r2.2)

/-- The `url` argument as the validators see it.  `validateUrl` in
`utils.ts` and `new URL(options.url)` in `initSession` run the same
parser on the same string, so a URL argument is either unusable
(missing, not a string, empty/whitespace, or failing `new URL`) or it
parses, with some origin. -/
inductive UrlArg
  | invalid
  | parseable (origin : String)
deriving DecidableEq

/-- The `session` argument as `validateSession` sees it: either it fails
validation (missing, not an object, or either token missing/empty/not a
string) or it carries both tokens. -/
inductive SessArg
  | invalid
  | valid (s : AuthSession)
deriving DecidableEq

/-- The errors thrown or rejected along the popup start path. -/
inductive QError
  | config
  | destroyed
  | invalidUrl
  | env
deriving DecidableEq

/-- Arguments of `paymentSessions.displayPopup`, with `popupBlocked`
modelling the environment's `window.open` returning `null` (popup
blocker).  Width/height/windowName only feed the geometry string and are
omitted. -/
structure Opts where
  url : UrlArg
  session : SessArg
  cbs : Callbacks
  popupBlocked : Bool

/-- `Quentli.handlePopup`: `this.popupWindow = window.open(...)`; when
that returns no window, the error thrown inside the `try` is caught,
reported via `callbacks.onError`, and rethrown — with no cleanup, so the
listener installed by `initSession` stays behind.  On success the
popup-close poll interval is scheduled. -/
def handlePopup (st : QState) (o : Opts) :
    QState × List Effect × Option QError :=
  if o.popupBlocked then
    ({ st with popupWindow := none },
     (if o.cbs.hasError then [Effect.cbError o.cbs.id] else []),
     some QError.env)
  else
    ({ st with
        popupWindow := some { closed := false }
        popupCheckInterval := some o.cbs },
     [], none)

/-- `Quentli.initSession` specialised to `displayMode: 'popup'`,
`sessionType: 'payment'`: throw if destroyed, record the session kind,
derive `expectedOrigin` from the URL (a parse failure is reported via
`onError` and thrown — unreachable via `displayPopup`, whose
`validateUrl` runs the same parser first), store the session, install
the global listener, then run the popup strategy.  An invalid session
argument is stored as no usable session (`handleReady`'s
`!this.authSession` guard then refuses it). -/
def initSessionPopup (st : QState) (o : Opts) :
    QState × List Effect × Option QError :=
  if st.isDestroyed then (st, [], some QError.destroyed)
  else
    let st1 := { st with sessionType := some SType.payment }
    match o.url with
    | UrlArg.invalid =>
      (st1, (if o.cbs.hasError then [Effect.cbError o.cbs.id] else []),
       some QError.invalidUrl)
    | UrlArg.parseable eo =>
      let st2 :=
        { st1 with
          expectedOrigin := some eo
          authSession :=
            match o.session with
            | SessArg.valid s => some s
            | SessArg.invalid => none
          messageHandler := some o.cbs }
      handlePopup st2 o

/-- `paymentSessions.displayPopup`: `validateUrl` and `validateSession`
throw a configuration error before anything is touched (before
`cleanup`, before any allocation, and without invoking `onError`); on
acceptance the previous session is cleaned up and `initSession` runs. -/
def displayPopup (st : QState) (o : Opts) :
    QState × List Effect × Option QError :=
  match o.url with
  | UrlArg.invalid => (st, [], some QError.config)
  | UrlArg.parseable _ =>
    match o.session with
    | SessArg.invalid => (st, [], some QError.config)
    | SessArg.valid _ => initSessionPopup (cleanup st) o

/-- Is this effect a credential transmission (an `INIT` post)? -/
def isCredSend : Effect → Bool
  | Effect.postInit _ _ _ _ _ => true
  | _ => false

/-- Number of credential transmissions in a trace. -/
def credSendCount (l : List Effect) : Nat :=
  (l.filter isCredSend).length

/-- The session id whose callback an effect invokes, if any. -/
def cbOwner : Effect → Option Nat
  | Effect.cbComplete i => some i
  | Effect.cbCancel i => some i
  | Effect.cbError i => some i
  | Effect.postInit _ _ _ _ _ => none

/-- No listener, no live current channel, no scheduled interval, and no
session kind recorded: no event can produce an effect.  The session-kind
component matters because an orphaned channel's closure stays open even
after teardown, but its dispatch is gated on `this.sessionType`, which
`cleanup` nulls. -/
def silenced (st : QState) : Bool :=
  st.messageHandler.isNone && st.messageChannel.isNone &&
    st.popupCheckInterval.isNone && st.sessionType.isNone

/-- All resources released, as `cleanup` leaves them: listener, channel,
interval, frame, session, origin and kind reset, and the popup handle
either gone or pointing at a closed window. -/
def released (st : QState) : Bool :=
  silenced st && st.iframeElement.isNone && st.authSession.isNone &&
    st.expectedOrigin.isNone && st.sessionType.isNone &&
    (match st.popupWindow with
     | none => true
     | some w => w.closed)

/-- Does session id `i` own any closure currently live in the state —
the listener, the current channel, the poll interval, or the `onmessage`
closure of some orphaned channel? -/
def owns (st : QState) (i : Nat) : Bool :=
  (match st.messageHandler with
   | some c => c.id == i
   | none => false) ||
  (match st.messageChannel with
   | some c => c.id == i
   | none => false) ||
  (match st.popupCheckInterval with
   | some c => c.id == i
   | none => false) ||
  st.orphanedChannels.any (fun c => c.id == i)

/-- The event is an origin-accepted `READY` arriving while a listener, a
target surface and a stored session are present and with channel
allocation succeeding — exactly the condition under which `handleReady`
posts `INIT`. -/
def readyAccepted (st : QState) (ev : Ev) : Bool :=
  match ev with
  | Ev.windowMsg o (some m) f =>
    st.messageHandler.isSome && !originRejected st o &&
      (m.type == some MType.READY) &&
      (st.popupWindow.isSome || st.iframeElement.isSome) &&
      st.authSession.isSome && !f
  | _ => false

/-- Callback set of the concrete example session 0 (all callbacks
provided). -/
def cbs0 : Callbacks :=
  { id := 0, hasComplete := true, hasCancel := true, hasError := true }

/-- Callback set of the concrete example session 1. -/
def cbs1 : Callbacks :=
  { id := 1, hasComplete := true, hasCancel := true, hasError := true }

/-- A well-formed popup payment start request. -/
def optsOk : Opts :=
  { url := UrlArg.parseable "https://pay.example.com"
    session := SessArg.valid { accessToken := "tok_a", csrfToken := "tok_c" }
    cbs := cbs0
    popupBlocked := false }

/-- The same request hitting a popup blocker. -/
def optsBlocked : Opts :=
  { optsOk with popupBlocked := true }

/-- A second popup start request, for session 1, superseding session 0. -/
def optsB : Opts :=
  { optsOk with cbs := cbs1 }

/-- A start request with a malformed URL (and `onError` supplied). -/
def optsBadUrl : Opts :=
  { optsOk with url := UrlArg.invalid }

/-- A start request with an incomplete credential pair. -/
def optsBadSession : Opts :=
  { optsOk with session := SessArg.invalid }

/-- The orchestrator state right after a successful
`displayPopup optsOk` from a fresh instance: listener and poll installed
for session 0, popup open, credentials stored, awaiting `READY`. -/
def stActive : QState :=
  (displayPopup freshState optsOk).1

/-- `stActive` after the user closes the popup window. -/
def stClosed : QState :=
  (step stActive Ev.closePopup).1

/-- A `READY` message. -/
def readyMsg : Msg :=
  { type := some MType.READY, status := none }

/-- A `PAYMENT_COMPLETED` message with status `"COMPLETE"`. -/
def completeMsg : Msg :=
  { type := some MType.PAYMENT_COMPLETED, status := some "COMPLETE" }

/-- A `READY` delivery from the expected origin during which channel
allocation fails. -/
def evReadyFail : Ev :=
  Ev.windowMsg "https://pay.example.com" (some readyMsg) true

/-- A `READY` delivery from the expected origin that succeeds. -/
def evReadyOk : Ev :=
  Ev.windowMsg "https://pay.example.com" (some readyMsg) false

/-- Session 0 after its surface delivered `READY` twice: the channel
created by the first handshake was overwritten by the second without its
port being closed, so it survives as an orphan. -/
def stTwoReady : QState :=
  (run stActive [evReadyOk, evReadyOk]).1

/-- Session 1 started (popup, payment) on top of the twice-handshaken
session 0: `cleanup` closed only session 0's current channel, so the
orphaned channel — with session 0's captured callbacks — is still
live. -/
def stSecondSession : QState :=
  (displayPopup stTwoReady optsB).1

/-! ## Helper lemmas -/

theorem released_cleanup (st : QState) : released (cleanup st) = true := by
  simp only [released, silenced, cleanup]
  cases h : st.popupWindow with
  | none => simp
  | some w => cases hw : w.closed <;> simp [hw]

theorem handleCompletion_channel_none (st : QState) (cbs : Callbacks) (m : Msg)
    (hc : st.messageChannel = none) :
    ((handleCompletion st cbs m).1).messageChannel = none := by
  simp only [handleCompletion]
  (repeat' split) <;> simp_all [cleanup]

theorem channel_none_unless_ready (st : QState) (ev : Ev)
    (hc : st.messageChannel = none) (hna : readyAccepted st ev = false) :
    ((step st ev).1).messageChannel = none := by
  cases ev <;>
    simp only [step, handleMessage, handleReady, readyAccepted] at hna ⊢ <;>
    (repeat' split) <;>
    simp_all [cleanup, originRejected, handleCompletion_channel_none]

theorem owns_cleanup (st : QState) (i : Nat)
    (ho : st.orphanedChannels.any (fun c => c.id == i) = false) :
    owns (cleanup st) i = false := by
  simp [owns, cleanup, ho]

theorem owns_spec (st : QState) (i : Nat) (h : owns st i = false) :
    (∀ c, st.messageHandler = some c → (c.id == i) = false)
    ∧ (∀ c, st.messageChannel = some c → (c.id == i) = false)
    ∧ (∀ c, st.popupCheckInterval = some c → (c.id == i) = false)
    ∧ st.orphanedChannels.any (fun c => c.id == i) = false := by
  unfold owns at h
  simp only [Bool.or_eq_false_iff] at h
  refine ⟨?_, ?_, ?_, h.2⟩ <;> intro c hc
  · have h1 := h.1.1.1
    rw [hc] at h1
    exact h1
  · have h1 := h.1.1.2
    rw [hc] at h1
    exact h1
  · have h1 := h.1.2
    rw [hc] at h1
    exact h1

theorem owns_handleCompletion (st : QState) (cbs : Callbacks) (m : Msg) (i : Nat)
    (h : owns st i = false) (hcbs : (cbs.id == i) = false) :
    owns (handleCompletion st cbs m).1 i = false
    ∧ ∀ e ∈ (handleCompletion st cbs m).2, cbOwner e ≠ some i := by
  have hne : cbs.id ≠ i := by simpa using hcbs
  have hcl : owns (cleanup st) i = false :=
    owns_cleanup st i (owns_spec st i h).2.2.2
  simp only [handleCompletion]
  (repeat' split) <;> simp_all [cbOwner]

theorem owns_handleReady (st : QState) (cbs : Callbacks) (o : String) (f : Bool)
    (i : Nat) (h : owns st i = false) (hcbs : (cbs.id == i) = false) :
    owns (handleReady st cbs o f).1 i = false
    ∧ ∀ e ∈ (handleReady st cbs o f).2, cbOwner e ≠ some i := by
  have hne : cbs.id ≠ i := by simpa using hcbs
  have hco : ∀ c, st.messageChannel = some c → (c.id == i) = false :=
    (owns_spec st i h).2.1
  simp only [handleReady]
  (repeat' split) <;>
    first
      | (refine ⟨h, ?_⟩
         intro e he
         simp at he
         done)
      | (refine ⟨h, ?_⟩
         intro e he
         simp at he
         subst he
         simp only [cbOwner]
         exact fun hx => hne (Option.some.inj hx))
      | (constructor
         · simp only [owns, Bool.or_eq_false_iff] at h ⊢
           refine ⟨⟨⟨h.1.1.1, hcbs⟩, h.1.2⟩, ?_⟩
           first
             | exact h.2
             | (rw [List.any_cons]
                simp only [Bool.or_eq_false_iff]
                refine ⟨?_, h.2⟩
                have hb := hco _ (by assumption)
                simpa using hb)
         · intro e he
           simp at he
           subst he
           simp [cbOwner])

theorem owns_step (st : QState) (ev : Ev) (i : Nat) (h : owns st i = false) :
    owns (step st ev).1 i = false
    ∧ ∀ e ∈ (step st ev).2, cbOwner e ≠ some i := by
  obtain ⟨hh, hc, hp, ho⟩ := owns_spec st i h
  have horph : ∀ c ∈ st.orphanedChannels, (c.id == i) = false := by
    intro c hcmem
    cases hb : c.id == i with
    | false => rfl
    | true =>
      exfalso
      have hany : st.orphanedChannels.any (fun x => x.id == i) = true :=
        List.any_eq_true.mpr ⟨c, hcmem, hb⟩
      simp [hany] at ho
  cases ev <;> simp only [step, handleMessage] <;> (repeat' split)
  all_goals
    first
      | (refine ⟨h, ?_⟩
         intro e he
         simp at he
         done)
      | exact owns_handleReady st _ _ _ i h (hh _ (by assumption))
      | exact owns_handleCompletion st _ _ i h (hh _ (by assumption))
      | exact owns_handleCompletion st _ _ i h (hc _ (by assumption))
      | exact owns_handleCompletion st _ _ i h (hp _ (by assumption))
      | exact owns_handleCompletion st _ _ i h (horph _ (by assumption))
      | (refine ⟨owns_cleanup st i ho, ?_⟩
         intro e he
         simp at he
         done)
      | (refine ⟨owns_cleanup st i ho, ?_⟩
         intro e he
         simp at he
         subst he
         simp only [cbOwner]
         intro hx
         have hcbs := hp _ (by assumption)
         have := Option.some.inj hx
         simp_all)

theorem owns_run (evs : List Ev) (st : QState) (i : Nat) (h : owns st i = false) :
    owns (run st evs).1 i = false
    ∧ ∀ e ∈ (run st evs).2, cbOwner e ≠ some i := by
  induction evs generalizing st with
  | nil => exact ⟨h, by simp [run]⟩
  | cons ev evs ih =>
    obtain ⟨h1, h2⟩ := owns_step st ev i h
    obtain ⟨h3, h4⟩ := ih (step st ev).1 h1
    refine ⟨h3, ?_⟩
    intro e he
    simp only [run, List.mem_append] at he
    rcases he with he | he
    · exact h2 e he
    · exact h4 e he

/-! ## Claim theorems -/

theorem handleCompletion_isDestroyed (st : QState) (cbs : Callbacks) (m : Msg) :
    ((handleCompletion st cbs m).1).isDestroyed = st.isDestroyed := by
  simp only [handleCompletion]
  (repeat' split) <;> simp [cleanup]

theorem handleReady_isDestroyed (st : QState) (cbs : Callbacks) (o : String)
    (f : Bool) :
    ((handleReady st cbs o f).1).isDestroyed = st.isDestroyed := by
  simp only [handleReady]
  (repeat' split) <;> simp

theorem step_isDestroyed (st : QState) (ev : Ev) :
    ((step st ev).1).isDestroyed = st.isDestroyed := by
  cases ev <;> simp only [step, handleMessage] <;> (repeat' split) <;>
    first
      | rfl
      | exact handleCompletion_isDestroyed st _ _
      | exact handleReady_isDestroyed st _ _ _

theorem displayPopup_isDestroyed (st : QState) (o : Opts) :
    ((displayPopup st o).1).isDestroyed = st.isDestroyed := by
  simp only [displayPopup, initSessionPopup, handlePopup]
  (repeat' split) <;> simp [cleanup]

theorem handleCompletion_no_credSend (st : QState) (cbs : Callbacks) (m : Msg) :
    ∀ e ∈ (handleCompletion st cbs m).2, isCredSend e = false := by
  simp only [handleCompletion]
  (repeat' split) <;> simp [isCredSend]

theorem handleReady_credSend (st : QState) (cbs : Callbacks) (o : String)
    (f : Bool) :
    credSendCount (handleReady st cbs o f).2
      = if (st.popupWindow.isSome || st.iframeElement.isSome)
            && st.authSession.isSome && !f then 1 else 0 := by
  simp only [handleReady]
  cases hp : st.popupWindow with
  | some w =>
    cases ha : st.authSession with
    | none => simp [credSendCount]
    | some s => cases f <;> simp [credSendCount, isCredSend]
  | none =>
    cases hi : st.iframeElement with
    | none => simp [credSendCount]
    | some u =>
      cases ha : st.authSession with
      | none => simp [credSendCount]
      | some s => cases f <;> simp [credSendCount, isCredSend]

/-- C4 (amended): each event step transmits the credential pair exactly
once if it is an accepted `READY` handshake (listener installed, origin
accepted, surface and stored session present, allocation succeeding) and
zero times otherwise — so a session re-delivering `READY` re-transmits
the credentials, refuting once-per-session. -/
theorem c4_credentials_once_per_ready (st : QState) (ev : Ev) :
    credSendCount (step st ev).2 = if readyAccepted st ev then 1 else 0 := by
  cases ev with
  | windowMsg o d f =>
    cases d with
    | none =>
      simp only [step, handleMessage, readyAccepted]
      (repeat' split) <;> simp_all [credSendCount]
    | some m =>
      simp only [step]
      cases hh : st.messageHandler with
      | none => simp [handleMessage, readyAccepted, hh, credSendCount]
      | some cbs =>
        simp only [handleMessage]
        by_cases hr : originRejected st o = true
        · simp [hr, readyAccepted, hh, credSendCount]
        · simp only [Bool.not_eq_true] at hr
          simp only [hr, Bool.false_eq_true, if_false]
          cases hmt : m.type with
          | none => simp [readyAccepted, hh, hr, hmt, credSendCount]
          | some t =>
            cases t with
            | READY =>
              rw [handleReady_credSend]
              simp [readyAccepted, hh, hr, hmt]
            | INIT => simp [readyAccepted, hh, hr, hmt, credSendCount]
            | PAYMENT_COMPLETED =>
              (repeat' split) <;>
                (try simp_all [readyAccepted, credSendCount]) <;>
                (try exact handleCompletion_no_credSend st _ _)
            | PAYMENT_METHOD_ADDED =>
              (repeat' split) <;>
                (try simp_all [readyAccepted, credSendCount]) <;>
                (try exact handleCompletion_no_credSend st _ _)
            | other => simp [readyAccepted, hh, hr, hmt, credSendCount]
  | channelMsg m =>
    simp only [step, readyAccepted]
    (repeat' split) <;>
      (try simp_all [credSendCount]) <;>
      (try exact handleCompletion_no_credSend st _ _)
  | orphanMsg c m =>
    simp only [step, readyAccepted]
    (repeat' split) <;>
      (try simp_all [credSendCount]) <;>
      (try exact handleCompletion_no_credSend st _ _)
  | pollTick =>
    simp only [step, readyAccepted]
    (repeat' split) <;> simp_all [credSendCount, isCredSend]
  | closePopup =>
    simp only [step, readyAccepted]
    (repeat' split) <;> simp_all [credSendCount, isCredSend]

/-- C4 counterexample: delivering `READY` twice from the expected origin
in one session transmits the credential pair twice. -/
theorem c4_counterexample_two_sends :
    credSendCount (run stActive [evReadyOk, evReadyOk]).2 = 2 := by
  rfl

/-- C6 (amended): when `window.open` yields no window for a valid popup
start, the failure is reported via `onError` and by rejecting the call,
but resources allocated before the failure survive: the global message
listener stays installed together with the expected origin, stored
credentials and session kind; only the popup handle is null and no poll
interval is scheduled. -/
theorem c6_popup_blocked_leaves_listener (st : QState) (o : Opts)
    (eo : String) (s : AuthSession)
    (hd : st.isDestroyed = false) (hu : o.url = UrlArg.parseable eo)
    (hs : o.session = SessArg.valid s) (hb : o.popupBlocked = true)
    (he : o.cbs.hasError = true) :
    (displayPopup st o).2.2 = some QError.env
    ∧ (displayPopup st o).2.1 = [Effect.cbError o.cbs.id]
    ∧ (displayPopup st o).1.messageHandler = some o.cbs
    ∧ (displayPopup st o).1.expectedOrigin = some eo
    ∧ (displayPopup st o).1.authSession = some s
    ∧ (displayPopup st o).1.popupWindow = none
    ∧ (displayPopup st o).1.popupCheckInterval = none := by
  simp [displayPopup, initSessionPopup, handlePopup, hu, hs, hb, hd, he,
    cleanup]

/-- C6 witness: a blocked popup start from a fresh instance. -/
theorem c6_witness :
    (displayPopup freshState optsBlocked).2.2 = some QError.env
    ∧ (displayPopup freshState optsBlocked).2.1 = [Effect.cbError 0]
    ∧ (displayPopup freshState optsBlocked).1.messageHandler = some cbs0 := by
  have h := c6_popup_blocked_leaves_listener freshState optsBlocked
    "https://pay.example.com" { accessToken := "tok_a", csrfToken := "tok_c" }
    rfl rfl rfl rfl rfl
  exact ⟨h.1, h.2.1, h.2.2.1⟩

/-- C6 counterexample: after the blocked popup start the global message
listener is still installed with no surface — refuting that no resources
remain allocated. -/
theorem c6_counterexample_listener_remains :
    (displayPopup freshState optsBlocked).1.messageHandler ≠ none
    ∧ (displayPopup freshState optsBlocked).1.popupWindow = none
    ∧ (displayPopup freshState optsBlocked).1.iframeElement = none := by
  refine ⟨by decide, rfl, rfl⟩

/-- C7 (amended): when channel allocation fails while handling an
accepted `READY`, the failure is reported via `onError` only (when
provided) and the state is left entirely unchanged: no cleanup is
triggered, so the session keeps its listener and stored credentials and
can process further handshake or outcome messages. -/
theorem c7_protocol_error_changes_nothing (st : QState) (cbs : Callbacks)
    (o : String) (m : Msg)
    (hh : st.messageHandler = some cbs)
    (hr : originRejected st o = false)
    (hm : m.type = some MType.READY)
    (ht : (st.popupWindow.isSome || st.iframeElement.isSome) = true)
    (ha : st.authSession.isSome = true) :
    step st (Ev.windowMsg o (some m) true)
      = (st, if cbs.hasError then [Effect.cbError cbs.id] else []) := by
  obtain ⟨s, hs⟩ := Option.isSome_iff_exists.mp ha
  simp only [step, hh, handleMessage, hr, Bool.false_eq_true, if_false, hm]
  cases hp : st.popupWindow with
  | some w => simp [handleReady, hp, hs]
  | none =>
    rw [hp] at ht
    simp only [Option.isSome_none, Bool.false_or] at ht
    obtain ⟨u, hu⟩ := Option.isSome_iff_exists.mp ht
    simp [handleReady, hp, hu, hs]

/-- C7 witness: in the concrete active popup session, a `READY` with
failing channel allocation reports `onError` for session 0 and leaves
the state unchanged. -/
theorem c7_witness :
    step stActive evReadyFail = (stActive, [Effect.cbError 0]) := by
  have h := c7_protocol_error_changes_nothing stActive cbs0
    "https://pay.example.com" readyMsg rfl rfl rfl rfl rfl
  simpa using h

/-- C7 counterexample: after the channel-allocation failure fired
`onError`, the session still processes a second `READY` — it posts INIT
with the credentials — and the listener and stored credentials are still
in place, refuting that the failure triggers full cleanup and ends the
session. -/
theorem c7_counterexample_session_continues :
    (run stActive [evReadyFail, evReadyOk]).2
      = [Effect.cbError 0,
         Effect.postInit TargetKind.popup "https://pay.example.com"
           "tok_a" "tok_c" 1]
    ∧ (run stActive [evReadyFail, evReadyOk]).1.messageHandler = some cbs0
    ∧ (run stActive [evReadyFail, evReadyOk]).1.authSession
        = some { accessToken := "tok_a", csrfToken := "tok_c" } := by
  exact ⟨rfl, rfl, rfl⟩

/-- C8 (amended): starting session B over a pending session A first
runs `cleanup` — reaching the fully-released state — before any of B's
resources are allocated, and B's start succeeds with no effects; and
PROVIDED session A left no orphaned channel (its surface delivered at
most one accepted `READY`), no event delivered afterwards can ever
invoke a callback owned by A's session id.  The claim as written is
refuted when A handshook twice: `handleReady` overwrites the channel
without closing its port and `cleanup` closes only the current one, so
the orphan survives the supersession and a completion delivered on it
can still fire A's captured callback. -/
theorem c8_new_session_supersedes_old (st : QState) (o : Opts) (eo : String)
    (s : AuthSession) (cbsA : Callbacks)
    (hA : st.messageHandler = some cbsA)
    (hd : st.isDestroyed = false)
    (hu : o.url = UrlArg.parseable eo) (hs : o.session = SessArg.valid s)
    (hb : o.popupBlocked = false)
    (hne : o.cbs.id ≠ cbsA.id)
    (hor : st.orphanedChannels.any (fun c => c.id == cbsA.id) = false) :
    displayPopup st o = initSessionPopup (cleanup st) o
    ∧ released (cleanup st) = true
    ∧ (displayPopup st o).2.2 = none
    ∧ (displayPopup st o).2.1 = []
    ∧ ∀ evs, ∀ e ∈ (run (displayPopup st o).1 evs).2,
        cbOwner e ≠ some cbsA.id := by
  have h1 : displayPopup st o = initSessionPopup (cleanup st) o := by
    simp [displayPopup, hu, hs]
  have hbe : (o.cbs.id == cbsA.id) = false := by
    simpa using hne
  have howns : owns (displayPopup st o).1 cbsA.id = false := by
    rw [h1]
    simp [initSessionPopup, handlePopup, cleanup, hd, hu, hs, hb, owns, hbe]
    intro x hx hxx
    have hany : st.orphanedChannels.any (fun c => c.id == cbsA.id) = true :=
      List.any_eq_true.mpr ⟨x, hx, by simpa using hxx⟩
    simp [hany] at hor
  refine ⟨h1, released_cleanup st, ?_, ?_, ?_⟩
  · rw [h1]
    simp [initSessionPopup, handlePopup, cleanup, hd, hu, hs, hb]
  · rw [h1]
    simp [initSessionPopup, handlePopup, cleanup, hd, hu, hs, hb]
  · intro evs e he
    exact (owns_run evs _ _ howns).2 e he

/-- C8 counterexample: session 0 (payment popup) handshakes twice, so
its first private channel is orphaned with an open port holding session
0's callbacks; session 1 is then started on the same instance — the
claim's supersession, which closes only the current channel — and a
`PAYMENT_COMPLETED` delivered on the orphaned port passes the dynamic
session-kind guard (session 1 is also a payment session) and fires
session 0's captured `onComplete` after session 1 started; the ensuing
cleanup also wipes session 1's resources. -/
theorem c8_counterexample_orphaned_channel_fires :
    stSecondSession.messageHandler = some cbs1
    ∧ stSecondSession.orphanedChannels = [cbs0]
    ∧ step stSecondSession (Ev.orphanMsg cbs0 completeMsg)
        = (cleanup stSecondSession, [Effect.cbComplete 0])
    ∧ cbOwner (Effect.cbComplete 0) = some cbs0.id
    ∧ cbs0.id ≠ cbs1.id
    ∧ (step stSecondSession (Ev.orphanMsg cbs0 completeMsg)).1.messageHandler
        = none := by
  exact ⟨rfl, rfl, rfl, rfl, by decide, rfl⟩

/-- C8 witness: superseding the concrete active single-handshake
session 0 (no orphans) with a new popup start for session 1. -/
theorem c8_witness :
    displayPopup stActive optsB = initSessionPopup (cleanup stActive) optsB
    ∧ released (cleanup stActive) = true
    ∧ (displayPopup stActive optsB).2.2 = none
    ∧ (displayPopup stActive optsB).2.1 = [] := by
  have h := c8_new_session_supersedes_old stActive optsB
    "https://pay.example.com" { accessToken := "tok_a", csrfToken := "tok_c" }
    cbs0 rfl rfl rfl rfl rfl (by decide) rfl
  exact ⟨h.1, h.2.1, h.2.2.1, h.2.2.2.1⟩

/-- C10: `isActive` is exactly the negation of the destroyed flag; it is
independent of session state — unchanged by `cleanup`, by any delivered
event, and by a new start — true on a fresh instance, and permanently
false once `destroy` runs (`destroy` is idempotent and nothing resets
the flag). -/
theorem c10_isActive_tracks_destroy_only (st : QState) (ev : Ev) (o : Opts) :
    isActive st = !st.isDestroyed
    ∧ isActive freshState = true
    ∧ (cleanup st).isDestroyed = st.isDestroyed
    ∧ ((step st ev).1).isDestroyed = st.isDestroyed
    ∧ ((displayPopup st o).1).isDestroyed = st.isDestroyed
    ∧ (destroy st).isDestroyed = true
    ∧ isActive (destroy st) = false
    ∧ destroy (destroy st) = destroy st := by
  refine ⟨rfl, rfl, rfl, step_isDestroyed st ev, displayPopup_isDestroyed st o,
    ?_, ?_, ?_⟩
  · by_cases h : st.isDestroyed = true <;> simp [destroy, h]
  · by_cases h : st.isDestroyed = true <;> simp [destroy, isActive, h]
  · by_cases h : st.isDestroyed = true <;> simp [destroy, h]

/-- C2: during an active session (an expected origin is set), a window
message from any origin not string-equal to it — including one differing
only in port or scheme — leaves the state unchanged and produces no
effect: no channel allocation, no INIT post, no callback invocation. -/
theorem c2_origin_mismatch_no_effect (st : QState) (eo o : String)
    (d : Option Msg) (f : Bool)
    (he : st.expectedOrigin = some eo) (hne : o ≠ eo) :
    step st (Ev.windowMsg o d f) = (st, []) := by
  have hrej : originRejected st o = true := by
    unfold originRejected
    rw [he]
    simpa using hne
  cases hmh : st.messageHandler with
  | none => simp [step, hmh]
  | some cbs => simp [step, hmh, handleMessage, hrej]

/-- C2 witness: in the concrete post-start state, whose expected origin
is `https://pay.example.com`, a completion message from the same host on
another port and one over plain `http` are both ignored. -/
theorem c2_witness :
    step stActive (Ev.windowMsg "https://pay.example.com:8443"
        (some completeMsg) false) = (stActive, [])
    ∧ step stActive (Ev.windowMsg "http://pay.example.com"
        (some completeMsg) false) = (stActive, []) :=
  ⟨c2_origin_mismatch_no_effect stActive "https://pay.example.com"
      "https://pay.example.com:8443" (some completeMsg) false rfl (by decide),
   c2_origin_mismatch_no_effect stActive "https://pay.example.com"
      "http://pay.example.com" (some completeMsg) false rfl (by decide)⟩

/-- C3: in a popup session holding a credential pair and awaiting the
handshake, a `READY` message from the expected origin makes the handler
post exactly one `INIT` to the popup surface carrying exactly the stored
access and csrf tokens and exactly one transferred channel endpoint, and
allocate the private channel; moreover, from the channel-less state, no
event other than an origin-accepted `READY` can make the channel exist. -/
theorem c3_ready_yields_one_init (st : QState) (cbs : Callbacks)
    (eo : String) (w : Win) (s : AuthSession) (m : Msg)
    (hh : st.messageHandler = some cbs) (ho : st.expectedOrigin = some eo)
    (hp : st.popupWindow = some w) (ha : st.authSession = some s)
    (hc : st.messageChannel = none) (hm : m.type = some MType.READY) :
    step st (Ev.windowMsg eo (some m) false)
      = ({ st with messageChannel := some cbs },
         [Effect.postInit TargetKind.popup eo s.accessToken s.csrfToken 1])
    ∧ ∀ ev : Ev, ((step st ev).1.messageChannel).isSome = true →
        readyAccepted st ev = true := by
  constructor
  · have hrej : originRejected st eo = false := by
      unfold originRejected
      rw [ho]
      simp
    simp [step, hh, handleMessage, hrej, hm, handleReady, hp, ha, hc]
  · intro ev hev
    by_cases hacc : readyAccepted st ev = true
    · exact hacc
    · exfalso
      simp only [Bool.not_eq_true] at hacc
      rw [channel_none_unless_ready st ev hc hacc] at hev
      simp at hev

/-- C3 witness: the concrete post-start state processes a `READY` from
`https://pay.example.com` into exactly one INIT post carrying
`tok_a`/`tok_c` and one transferred port, and creates the channel. -/
theorem c3_witness :
    step stActive evReadyOk
      = ({ stActive with messageChannel := some cbs0 },
         [Effect.postInit TargetKind.popup "https://pay.example.com"
            "tok_a" "tok_c" 1]) :=
  (c3_ready_yields_one_init stActive cbs0 "https://pay.example.com"
      { closed := false } { accessToken := "tok_a", csrfToken := "tok_c" }
      readyMsg rfl rfl rfl rfl rfl rfl).1

/-- C5: evaluating `cleanup` in the reachable state where the user has
already closed the popup leaves the popup-window field holding the stale
closed handle instead of resetting it to null (a later session's
`handleReady` would pick it up as `targetWindow` again); a second
`cleanup` call then changes nothing. -/
theorem c5_cleanup_keeps_stale_popup_handle :
    (cleanup stClosed).popupWindow = some { closed := true }
    ∧ (cleanup stClosed).popupWindow ≠ none
    ∧ cleanup (cleanup stClosed) = cleanup stClosed := by
  refine ⟨rfl, by decide, by decide⟩

/-- C9 (amended): a start request with a malformed URL or an incomplete
credential pair is rejected synchronously by the validators before any
resource allocation — the state is returned untouched, so no listener is
installed and no surface is opened — and with an empty effect trace, so
the supplied `onError` callback is NOT invoked. -/
theorem c9_rejects_before_allocation_no_onError (st : QState) (o : Opts)
    (hbad : o.url = UrlArg.invalid ∨ o.session = SessArg.invalid) :
    displayPopup st o = (st, [], some QError.config) := by
  unfold displayPopup
  rcases hbad with h | h
  · rw [h]
  · rw [h]
    cases o.url <;> rfl

/-- C9 counterexample to dual reporting: a malformed-URL start with an
`onError` callback supplied rejects with a configuration error yet emits
no effect at all — in particular `onError` is never invoked. -/
theorem c9_counterexample_no_dual_reporting :
    optsBadUrl.cbs.hasError = true
    ∧ (displayPopup freshState optsBadUrl).2.1 = []
    ∧ (displayPopup freshState optsBadUrl).2.2 = some QError.config
    ∧ (displayPopup freshState optsBadUrl).1 = freshState := by
  exact ⟨rfl, rfl, rfl, rfl⟩

/-- C9 witness: a request with an incomplete credential pair is likewise
rejected with the state untouched and no callback fired. -/
theorem c9_witness :
    displayPopup freshState optsBadSession
      = (freshState, [], some QError.config) :=
  c9_rejects_before_allocation_no_onError freshState optsBadSession
    (Or.inr rfl)

end QuentliJS
